import Mathlib

/-!
Verification of the SER 486 embedded controller core
(`src/Final_Project/main.c`): the cyclic-executive scheduler loop, the
request-parser finite state machine `parseRecvBuffer`, and the `getCall`
response serializer.  The socket line-buffer adapter is not part of the
repository (spec section 6 lists it as an external collaborator), so its
line-buffered primitives are modelled from the spec's interface contract:
non-blocking, poll-style operations over a queue of fully buffered lines.
-/

namespace FinalProject

/-! ## FSM state and API-call encodings (main.c lines 42-51) -/

/-- `#define EMPTY 0` -/
def EMPTY : Nat := 0
/-- `#define REQUEST 1` -/
def REQUEST : Nat := 1
/-- `#define HEADER 2` -/
def HEADER : Nat := 2
/-- `#define END 3` -/
def END : Nat := 3

/-- `#define NONE 0` -/
def NONE : Nat := 0
/-- `#define GET 1` -/
def GET : Nat := 1
/-- `#define PUT 2` -/
def PUT : Nat := 2
/-- `#define DELETE 3` -/
def DELETE : Nat := 3

/-! ## Socket line-buffer model

Modelled from the spec: the Line Socket Adapter (spec section 6) exposes
non-blocking, line-buffered primitives
(`hasCompleteLine`, `matchesPrefix` — "consumes the line if matched",
`discardLine`, `isBlankLine`, `bytesAvailable`) over one TCP endpoint.
The receive state is the queue of fully buffered complete lines plus any
bytes of a trailing line that has not terminated yet.  All primitives are
poll-style: on an empty queue a compare fails, a discard does nothing and
a blank-line test is false ("never wait for data", spec section 5). -/
structure SocketBuf where
  /-- complete buffered input lines, oldest first, stored without their
  line terminators -/
  lines : List String
  /-- bytes of a trailing incomplete (unterminated) line -/
  pending : Nat
  deriving Repr, DecidableEq

/-- Modelled from the spec: `hasCompleteLine()` — `socket_received_line`
is true iff at least one complete line is buffered. -/
def socket_received_line (b : SocketBuf) : Bool :=
  !b.lines.isEmpty

/-- Modelled from the spec: `isBlankLine()` — `socket_is_blank_line` tests
whether the oldest buffered line is blank; with no buffered line the
poll-style test reports false. -/
def socket_is_blank_line (b : SocketBuf) : Bool :=
  match b.lines with
  | [] => false
  | l :: _ => l = ""

/-- Modelled from the spec: `discardLine()` — `socket_flush_line` drops the
oldest buffered line; with no buffered line the non-blocking call is a
no-op. -/
def socket_flush_line (b : SocketBuf) : SocketBuf :=
  { b with lines := b.lines.tail }

/-- Bytes occupied by one buffered complete line: its text plus the CRLF
terminator that made it a complete line. -/
def lineBytes (l : String) : Nat := l.length + 2

/-- Modelled from the spec: `bytesAvailable()` — `socket_recv_available`
counts every byte sitting in the receive buffer: all complete lines plus
any trailing incomplete line. -/
def socket_recv_available (b : SocketBuf) : Nat :=
  b.lines.foldr (fun l acc => lineBytes l + acc) 0 + b.pending

/-! ## Parser state -/

/-- The mutable globals of `main.c` that the parser FSM touches:
`protocolState` (line 57), `apiCall` (line 60), the socket receive buffer,
and the UART diagnostic output (append-only). -/
structure ParserSt where
  protocolState : Nat
  apiCall : Nat
  buf : SocketBuf
  uart : List String
  deriving Repr, DecidableEq

/-! ## The REQUEST-state scan loop (main.c lines 362-376)

```c
found = 0;
while (!found) { // TODO: check for next line
    if (socket_recv_compare(SERVER_SOCKET, "GET ")) { apiCall = GET; found = 1; }
    else if (socket_recv_compare(SERVER_SOCKET, "PUT ")) { apiCall = PUT; found = 1; }
    else if (socket_recv_compare(SERVER_SOCKET, "DELETE ")) { apiCall = DELETE; found = 1; }
    socket_flush_line(SERVER_SOCKET);
}
```
`socket_recv_compare` is modelled from the spec: `matchesPrefix(text)`
"consumes the line if matched", leaves the buffer untouched otherwise. -/

/-- Whether `p` is a prefix of `s`, character by character (the comparison
`socket_recv_compare` performs against the head of the buffered line). -/
def strPrefixOf (p s : String) : Bool := p.data.isPrefixOf s.data

/-- The body of the compare chain: which API call the line decodes to,
testing the prefixes in the source's order. -/
def methodOf (l : String) : Option Nat :=
  if strPrefixOf "GET " l then some GET
  else if strPrefixOf "PUT " l then some PUT
  else if strPrefixOf "DELETE " l then some DELETE
  else none

/-- One iteration of the REQUEST-state `while (!found)` loop, with an
explicit iteration budget.  Each `fuel` step is one execution of the loop
body: with no buffered line every compare fails and the flush is a no-op,
so the body re-runs on an identical buffer; on a match the matched line is
consumed and the trailing `socket_flush_line` drops one further line. -/
def requestLoopFuel : Nat → List String → Option (Nat × List String)
  | 0, _ => none
  | n + 1, ls =>
    match ls with
    | [] => requestLoopFuel n []
    | l :: rest =>
      match methodOf l with
      | some api => some (api, rest.tail)
      | none => requestLoopFuel n rest

/-- The REQUEST-state scan loop, divergence made explicit: `none` means the
source loop can never exit on this buffer (the loop body makes no further
progress once the buffer is empty, see `requestLoopFuel`). -/
def requestLoop : List String → Option (Nat × List String)
  | [] => none
  | l :: rest =>
    match methodOf l with
    | some api => some (api, rest.tail)
    | none => requestLoop rest

/-! ## The HEADER/END-state skip loops (main.c lines 381-384 and 393-396)

```c
while (!socket_is_blank_line(SERVER_SOCKET)) {
    socket_flush_line(SERVER_SOCKET);
}
socket_flush_line(SERVER_SOCKET); // flush empty line
```
-/

/-- One iteration of the blank-line scan per `fuel` step: with no buffered
line the blank test is false and the flush is a no-op, so the body re-runs
on an identical buffer; the blank line found is itself flushed. -/
def skipToBlankFuel : Nat → List String → Option (List String)
  | 0, _ => none
  | n + 1, ls =>
    match ls with
    | [] => skipToBlankFuel n []
    | l :: rest => if l = "" then some rest else skipToBlankFuel n rest

/-- The blank-line scan loop, divergence made explicit: `none` means the
source loop can never exit on this buffer. -/
def skipToBlank : List String → Option (List String)
  | [] => none
  | l :: rest => if l = "" then some rest else skipToBlank rest

/-- The diagnostic string written by the FSM's default case
(main.c line 402). -/
def defaultCaseErr : String := "ERR: Default case entered\r\n"

/-! ## parseRecvBuffer (main.c lines 345-405) -/

/-- One invocation of `parseRecvBuffer`.  `none` records that the call
never returns: one of its internal scan loops runs out of buffered lines
without meeting its exit condition and then repeats for ever on the empty
buffer. -/
def parseRecvBuffer (s : ParserSt) : Option ParserSt :=
  if s.protocolState = EMPTY then
    -- case EMPTY: arm the parser when a full line has been received
    if socket_received_line s.buf then
      some { s with apiCall := NONE, protocolState := REQUEST }
    else
      some s
  else if s.protocolState = REQUEST then
    -- case REQUEST: scan for an API call, flushing each line until found
    match requestLoop s.buf.lines with
    | none => none
    | some (api, rest) =>
      some { s with apiCall := api, protocolState := HEADER,
                    buf := { s.buf with lines := rest } }
  else if s.protocolState = HEADER then
    -- case HEADER: flush header lines through the blank separator, then
    -- decide between a body (bytes still available) and request done
    match skipToBlank s.buf.lines with
    | none => none
    | some rest =>
      let b := { s.buf with lines := rest }
      if socket_recv_available b > 0 then
        some { s with protocolState := END, buf := b }
      else
        some { s with protocolState := EMPTY, buf := b }
  else if s.protocolState = END then
    -- case END: flush body lines through the blank terminator
    match skipToBlank s.buf.lines with
    | none => none
    | some rest =>
      some { s with protocolState := EMPTY,
                    buf := { s.buf with lines := rest } }
  else
    -- default: diagnostic only, state left as it was
    some { s with uart := s.uart ++ [defaultCaseErr] }

/-! ## The scheduler's protocol pump (main.c lines 188-190)

```c
while (socket_received_line(SERVER_SOCKET)) {
    parseRecvBuffer();
}
```
`fuel` bounds the number of `parseRecvBuffer` calls; `none` means the pump
has not come to rest within that budget (or a call inside it never
returned). -/
def pump : Nat → ParserSt → Option ParserSt
  | 0, _ => none
  | n + 1, s =>
    if socket_received_line s.buf then
      match parseRecvBuffer s with
      | none => none
      | some s' => pump n s'
    else
      some s

/-- The buffered lines of a well-formed request: the method line, the
header lines, the blank end-of-headers line, and, when a body is present,
the body lines and their blank terminator. -/
def requestLines (m : String) (hs body : List String) : List String :=
  m :: hs ++ [""] ++ (if body.isEmpty then [] else body ++ [""])

/-- Repeated invocation of `parseRecvBuffer` (the scheduler's pump on
state `s`) comes to rest with the parser back in `EMPTY`, `apiCall = api`
and the buffered lines fully consumed. -/
def drivesToEmpty (s : ParserSt) (api : Nat) : Prop :=
  ∃ n s', pump n s = some s' ∧ s'.protocolState = EMPTY
    ∧ s'.apiCall = api ∧ s'.buf.lines = []

/-! ## The scheduler loop body (main.c lines 142-218)

One iteration of `while (1) { ... }`, abstracted to the trace of the
actions it performs, in program order.  The external collaborators
(watchdog, LED, temperature sensor, temperature FSM, delay timers, socket
lifecycle, log and config write-backs) appear as trace events. -/

/-- The externally visible actions of one scheduler-loop iteration, in the
order `main` performs them. -/
inductive Ev where
  /-- `wdt_reset()` (line 144) -/
  | wdtReset
  /-- `led_update()` (line 147) -/
  | ledUpdate
  /-- `current_temperature = temp_get()` (line 156) -/
  | tempRead
  /-- `tempfsm_update(...)` (lines 170-174) -/
  | tempFsmUpdate
  /-- `delay_set(1, 1000)` (line 177) -/
  | delayRestart
  /-- `temp_start()` (line 178) -/
  | tempStart
  /-- `socket_open(SERVER_SOCKET, HTTP_PORT)` (line 182) -/
  | sockOpen
  /-- `socket_listen(SERVER_SOCKET)` (line 183) -/
  | sockListen
  /-- the protocol pump `while (socket_received_line) parseRecvBuffer()`
  (lines 188-190) -/
  | parsePump
  /-- `getCall()` (line 196) -/
  | dispatchGet
  /-- `putCall()` (line 199) -/
  | dispatchPut
  /-- `deleteCall()` (line 202) -/
  | dispatchDelete
  /-- `socket_disconnect(SERVER_SOCKET)` (line 209) -/
  | disconnect
  /-- `log_update()` (line 213) -/
  | logUpdate
  /-- `config_update()` (line 216) -/
  | configUpdate
  deriving Repr, DecidableEq

/-- The poll results the loop body reads from its collaborators this
iteration: `delay_isdone(1)` and `socket_is_closed(SERVER_SOCKET)`. -/
structure Env where
  delayDone : Bool
  sockClosed : Bool
  deriving Repr, DecidableEq

/-- The trace events of the dispatch `switch (apiCall)`
(main.c lines 192-206): `NONE` and the default case perform no action. -/
def dispatchEvs (api : Nat) : List Ev :=
  if api = NONE then []
  else if api = GET then [Ev.dispatchGet]
  else if api = PUT then [Ev.dispatchPut]
  else if api = DELETE then [Ev.dispatchDelete]
  else []

/-- The unconditional prefix of every loop iteration plus its two guarded
periodic steps: watchdog reset, LED update, the sensor-sampling block when
the delay has expired, and the reopen-in-listen-mode block when the socket
is closed (main.c lines 144-184). -/
def iterBase (e : Env) : List Ev :=
  [Ev.wdtReset, Ev.ledUpdate]
    ++ (if e.delayDone then
          [Ev.tempRead, Ev.tempFsmUpdate, Ev.delayRestart, Ev.tempStart]
        else [])
    ++ (if e.sockClosed then [Ev.sockOpen, Ev.sockListen] else [])

/-- One iteration of the scheduler loop (main.c lines 142-218): the trace
of actions performed, and the resulting parser state (`none` when the
protocol pump never comes to rest, in which case the trace stops at the
pump and the events after it never happen). -/
def loopIter (fuel : Nat) (e : Env) (s : ParserSt) :
    List Ev × Option ParserSt :=
  if socket_received_line s.buf then
    match pump fuel s with
    | none => (iterBase e ++ [Ev.parsePump], none)
    | some s' =>
      (iterBase e ++ [Ev.parsePump] ++ dispatchEvs s'.apiCall
         ++ [Ev.disconnect], some s')
  else
    (iterBase e ++ [Ev.logUpdate, Ev.configUpdate], some s)

/-- Whether some number of `parseRecvBuffer` calls lets the pump of the
iteration on `e`, `s` come to rest so that the connection teardown
`socket_disconnect` is reached. -/
def iterDisconnects (e : Env) (s : ParserSt) : Prop :=
  ∃ fuel, Ev.disconnect ∈ (loopIter fuel e s).1

/-! ## getCall (main.c lines 240-292)

The response serializer.  Socket writes append to an output string:
`socket_writestr`/`socket_writechar` write their text verbatim
(the source embeds `\r\n` explicitly where it wants one), and, modelled
from the spec's wire contract (JSON object keys), `socket_writequotedstring`
writes the string wrapped in double quotes.  The date, MAC-address and
decimal renderings (`socket_writedate`, `socket_write_macaddress`,
`socket_writedec32`) live in the external socket library; they are
abstracted as parameters. -/

/-- The vital-product-data record read by `getCall` (fields of `vpd`). -/
structure VPD where
  model : String
  manufacturer : String
  serial_number : String
  manufacture_date : Nat
  mac_address : List Nat
  country_of_origin : String

/-- The four configured thresholds read by `getCall` (fields of
`config`). -/
structure Config where
  hi_alarm : Int
  hi_warn : Int
  lo_alarm : Int
  lo_warn : Int

/-- The external socket library's value renderings, abstracted:
`socket_writedate`, `socket_write_macaddress`, `socket_writedec32`. -/
structure Fmt where
  date : Nat → String
  mac : List Nat → String
  dec : Int → String

/-- Modelled from the spec: `writeText(s)` — `socket_writestr` appends its
text verbatim to the connection's outbound bytes (the source embeds every
`\r\n` it wants explicitly, e.g. in `"Connection: close\r\n"`). -/
def socket_writestr (out : String) (s : String) : String := out ++ s

/-- Modelled from the spec: `writeRaw(byte)` — `socket_writechar` appends
one character to the outbound bytes. -/
def socket_writechar (out : String) (c : Char) : String :=
  out ++ String.singleton c

/-- Quotation wrapper used by the JSON serialization: the string enclosed
in double quotes. -/
def quoted (s : String) : String := "\"" ++ s ++ "\""

/-- Modelled from the spec: `socket_writequotedstring` appends the string
wrapped in double quotes (the response's JSON keys and string values). -/
def socket_writequotedstring (out : String) (s : String) : String :=
  out ++ quoted s

/-- One log entry of the response's log array as written by the loop body
(main.c lines 281-284): an object with keys `timestamp` and `event`. -/
def logEntryStr (f : Fmt) (rec : Nat × Nat) : String :=
  "\x7b" ++ quoted "timestamp" ++ ":" ++ f.date rec.1 ++ ","
    ++ quoted "event" ++ ":" ++ f.dec (Int.ofNat rec.2) ++ "\x7d"

/-- The comma-separated join with no trailing comma (the spec's
"entries are comma-separated with no trailing comma"). -/
def commaSeparated : List String → String
  | [] => ""
  | [x] => x
  | x :: y :: rest => x ++ "," ++ commaSeparated (y :: rest)

/-- The log-serialization loop of `getCall` (main.c lines 277-288),
transcribed write-for-write and index-for-index.  The log store is the
list `log`: `log_get_num_entries()` is its length and `log_get_record(i)`
its `i`-th element; a comma is written after the entry exactly when
`i < log_get_num_entries() - 1`. -/
def logLoopW (f : Fmt) (log : List (Nat × Nat)) (i : Nat) (out : String) :
    String :=
  if h : i < log.length then
    let time := (log.get ⟨i, h⟩).1
    let eventnum := (log.get ⟨i, h⟩).2
    let out := socket_writechar out '\x7b'
    let out := socket_writequotedstring out "timestamp"
    let out := socket_writechar out ':'
    let out := socket_writestr out (f.date time)
    let out := socket_writechar out ','
    let out := socket_writequotedstring out "event"
    let out := socket_writechar out ':'
    let out := socket_writestr out (f.dec (Int.ofNat eventnum))
    let out := socket_writechar out '\x7d'
    let out := if i < log.length - 1 then socket_writechar out ',' else out
    logLoopW f log (i + 1) out
  else out
termination_by log.length - i

/-- `getCall` (main.c lines 240-292): the full byte string the GET
dispatch writes to the connection, every `socket_write*` call transcribed
in program order, starting from outbound bytes `out`. -/
def getCall (f : Fmt) (v : VPD) (c : Config) (current_temperature : Int)
    (log : List (Nat × Nat)) (out : String) : String :=
  -- header
  let out := socket_writestr out "HTTP/1.1 200 OK"
  let out := socket_writestr out "Content-Type: application/vnd.api+json"
  let out := socket_writestr out "Connection: close\r\n"
  let out := socket_writestr out "\r\n"
  -- JSON payload
  let out := socket_writechar out '\x7b'
  let out := socket_writequotedstring out "vpd"
  let out := socket_writestr out ":\x7b"
  let out := socket_writequotedstring out "model"
  let out := socket_writechar out ':'
  let out := socket_writequotedstring out v.model
  let out := socket_writechar out ','
  let out := socket_writequotedstring out "manufacturer"
  let out := socket_writechar out ':'
  let out := socket_writequotedstring out v.manufacturer
  let out := socket_writechar out ','
  let out := socket_writequotedstring out "serial_number"
  let out := socket_writechar out ':'
  let out := socket_writequotedstring out v.serial_number
  let out := socket_writechar out ','
  let out := socket_writequotedstring out "manufacture_date"
  let out := socket_writechar out ':'
  let out := socket_writestr out (f.date v.manufacture_date)
  let out := socket_writechar out ','
  let out := socket_writequotedstring out "mac_address"
  let out := socket_writechar out ':'
  let out := socket_writestr out (f.mac v.mac_address)
  let out := socket_writechar out ','
  let out := socket_writequotedstring out "country_code"
  let out := socket_writechar out ':'
  let out := socket_writequotedstring out v.country_of_origin
  let out := socket_writechar out '\x7d' -- vpd object
  let out := socket_writechar out ','
  let out := socket_writequotedstring out "tcrit_hi"
  let out := socket_writechar out ':'
  let out := socket_writestr out (f.dec c.hi_alarm)
  let out := socket_writechar out ','
  let out := socket_writequotedstring out "twarn_hi"
  let out := socket_writechar out ':'
  let out := socket_writestr out (f.dec c.hi_warn)
  let out := socket_writechar out ','
  let out := socket_writequotedstring out "tcrit_lo"
  let out := socket_writechar out ':'
  let out := socket_writestr out (f.dec c.lo_alarm)
  let out := socket_writechar out ','
  let out := socket_writequotedstring out "twarn_lo"
  let out := socket_writechar out ':'
  let out := socket_writestr out (f.dec c.lo_warn)
  let out := socket_writechar out ','
  let out := socket_writequotedstring out "temperature"
  let out := socket_writechar out ':'
  let out := socket_writestr out (f.dec current_temperature)
  let out := socket_writechar out ','
  let out := socket_writequotedstring out "state"
  let out := socket_writechar out ':'
  let out := socket_writequotedstring out "NORMAL"
  let out := socket_writechar out ','
  let out := socket_writequotedstring out "log"
  let out := socket_writestr out ":["
  let out := logLoopW f log 0 out
  let out := socket_writechar out ']'
  let out := socket_writechar out '\x7d' -- end of JSON
  let out := socket_writestr out "\r\n" -- end of response
  out

/-- Trivial renderings for the abstract value serializers, used to
evaluate the response on concrete device state. -/
def fmt0 : Fmt := ⟨fun _ => "D", fun _ => "M", fun _ => "0"⟩

/-- A concrete vital-product-data record. -/
def vpd0 : VPD := ⟨"mdl", "mfg", "sn01", 0, [0, 1, 2, 3, 4, 5], "US"⟩

/-- A concrete thresholds record. -/
def cfg0 : Config := ⟨60, 50, 0, 10⟩

/-! ## Lemmas about the scan loops -/

theorem skipToBlankFuel_nil : ∀ n, skipToBlankFuel n ([] : List String) = none
  | 0 => rfl
  | n + 1 => skipToBlankFuel_nil n

theorem requestLoopFuel_nil : ∀ n, requestLoopFuel n ([] : List String) = none
  | 0 => rfl
  | n + 1 => requestLoopFuel_nil n

/-- When the structural scan reports that no bounded number of loop-body
iterations can reach a blank line, no iteration budget at all can: the
source's blank-line scan never exits on this buffer. -/
theorem skipToBlankFuel_of_none :
    ∀ (n : Nat) (xs : List String), skipToBlank xs = none →
      skipToBlankFuel n xs = none := by
  intro n
  induction n with
  | zero => intro xs _; rfl
  | succ m ih =>
    intro xs h
    cases xs with
    | nil => exact ih [] h
    | cons l rest =>
      rw [skipToBlank] at h
      by_cases hl : l = ""
      · simp [hl] at h
      · rw [if_neg hl] at h
        simp only [skipToBlankFuel, if_neg hl]
        exact ih rest h

/-- Fuelled counterpart of `requestLoop = none`: no iteration budget lets
the source's method scan exit on this buffer. -/
theorem requestLoopFuel_of_none :
    ∀ (n : Nat) (xs : List String), requestLoop xs = none →
      requestLoopFuel n xs = none := by
  intro n
  induction n with
  | zero => intro xs _; rfl
  | succ m ih =>
    intro xs h
    cases xs with
    | nil => exact ih [] h
    | cons l rest =>
      rw [requestLoop] at h
      cases hm : methodOf l with
      | some api => rw [hm] at h; cases h
      | none =>
        rw [hm] at h
        simp only [requestLoopFuel, hm]
        exact ih rest h

theorem requestLoop_cons_match (l : String) (rest : List String) (api : Nat)
    (hm : methodOf l = some api) :
    requestLoop (l :: rest) = some (api, rest.tail) := by
  rw [requestLoop, hm]

/-- Scanning past blank-free lines finds exactly the first blank line and
consumes it. -/
theorem skipToBlank_append (xs r : List String) (h : ∀ l ∈ xs, l ≠ "") :
    skipToBlank (xs ++ "" :: r) = some r := by
  induction xs with
  | nil => rw [List.nil_append, skipToBlank]; simp
  | cons a as ih =>
    have ha : a ≠ "" := h a (List.mem_cons_self a as)
    rw [List.cons_append, skipToBlank, if_neg ha]
    exact ih (fun l hl => h l (List.mem_cons_of_mem a hl))

/-! ## Step lemmas for `parseRecvBuffer` and the pump -/

theorem parse_empty_step (s : ParserSt) (hst : s.protocolState = EMPTY)
    (hl : socket_received_line s.buf = true) :
    parseRecvBuffer s
      = some { s with apiCall := NONE, protocolState := REQUEST } := by
  simp [parseRecvBuffer, hst, hl]

theorem parse_request_step (s : ParserSt) (hst : s.protocolState = REQUEST)
    (m : String) (rest : List String) (api : Nat)
    (hb : s.buf.lines = m :: rest) (hm : methodOf m = some api) :
    parseRecvBuffer s
      = some { s with apiCall := api, protocolState := HEADER,
                      buf := { s.buf with lines := rest.tail } } := by
  have h1 : requestLoop s.buf.lines = some (api, rest.tail) := by
    rw [hb]; exact requestLoop_cons_match m rest api hm
  simp [parseRecvBuffer, hst, REQUEST, EMPTY, h1]

theorem parse_header_step (s : ParserSt) (hst : s.protocolState = HEADER)
    (rest : List String) (hsk : skipToBlank s.buf.lines = some rest) :
    parseRecvBuffer s
      = if socket_recv_available { s.buf with lines := rest } > 0 then
          some { s with protocolState := END,
                        buf := { s.buf with lines := rest } }
        else
          some { s with protocolState := EMPTY,
                        buf := { s.buf with lines := rest } } := by
  simp [parseRecvBuffer, hst, HEADER, REQUEST, EMPTY, hsk]

theorem parse_end_step (s : ParserSt) (hst : s.protocolState = END)
    (rest : List String) (hsk : skipToBlank s.buf.lines = some rest) :
    parseRecvBuffer s
      = some { s with protocolState := EMPTY,
                      buf := { s.buf with lines := rest } } := by
  simp [parseRecvBuffer, hst, END, HEADER, REQUEST, EMPTY, hsk]

theorem received_line_of_ne (b : SocketBuf) (h : b.lines ≠ []) :
    socket_received_line b = true := by
  obtain ⟨x, xs, hx⟩ := List.exists_cons_of_ne_nil h
  unfold socket_received_line
  rw [hx]
  rfl

theorem pump_no_line (n : Nat) (s : ParserSt)
    (h : socket_received_line s.buf = false) : pump (n + 1) s = some s := by
  simp [pump, h]

theorem pump_step (n : Nat) (s s' : ParserSt)
    (hl : socket_received_line s.buf = true)
    (hp : parseRecvBuffer s = some s') : pump (n + 1) s = pump n s' := by
  simp [pump, hl, hp]

theorem pump_none_of_parse_none (s : ParserSt)
    (hl : socket_received_line s.buf = true)
    (hp : parseRecvBuffer s = none) : ∀ n, pump n s = none := by
  intro n
  cases n with
  | zero => rfl
  | succ m => simp [pump, hl, hp]

theorem recv_available_nil (p : Nat) :
    socket_recv_available ⟨[], p⟩ = p := by
  simp [socket_recv_available]

theorem recv_available_cons_pos (l : String) (ls : List String) (p : Nat) :
    0 < socket_recv_available ⟨l :: ls, p⟩ := by
  simp [socket_recv_available, lineBytes]

/-! ## Lemmas about the response serialization -/

theorem singleton_colon : String.singleton ':' = ":" := rfl

theorem singleton_comma : String.singleton ',' = "," := rfl

theorem singleton_lbrace : String.singleton '\x7b' = "\x7b" := rfl

theorem singleton_rbrace : String.singleton '\x7d' = "\x7d" := rfl

theorem singleton_rbracket : String.singleton ']' = "]" := rfl

theorem commaSeparated_cons_ne (a : String) (l : List String) (h : l ≠ []) :
    commaSeparated (a :: l) = a ++ "," ++ commaSeparated l := by
  cases l with
  | nil => exact absurd rfl h
  | cons b bs => rfl

/-- The writer-style log loop appends exactly the comma-separated log
entries, no trailing comma, to whatever bytes precede it. -/
theorem logLoopW_eq (f : Fmt) (log : List (Nat × Nat)) :
    ∀ (k i : Nat) (out : String), log.length ≤ i + k →
      logLoopW f log i out
        = out ++ commaSeparated ((log.drop i).map (logEntryStr f)) := by
  intro k
  induction k with
  | zero =>
    intro i out hk
    have h1 : ¬ i < log.length := by omega
    have h2 : log.drop i = [] := List.drop_eq_nil_of_le (by omega)
    rw [logLoopW]
    simp [h1, h2, commaSeparated]
  | succ k ih =>
    intro i out hk
    rw [logLoopW]
    by_cases h : i < log.length
    · rw [dif_pos h]
      have hdrop : log.drop i = log[i] :: log.drop (i + 1) :=
        List.drop_eq_getElem_cons h
      rw [hdrop]
      by_cases h2 : i + 1 < log.length
      · have hlast : i < log.length - 1 := by omega
        have hne : (log.drop (i + 1)).map (logEntryStr f) ≠ [] := by
          simp only [ne_eq, List.map_eq_nil_iff, List.drop_eq_nil_iff]
          omega
        rw [ih (i + 1) _ (by omega), List.map_cons,
            commaSeparated_cons_ne _ _ hne]
        simp only [socket_writestr, socket_writechar,
          socket_writequotedstring, logEntryStr, quoted, if_pos hlast,
          singleton_colon, singleton_comma, singleton_lbrace,
          singleton_rbrace, List.get_eq_getElem, String.append_assoc]
      · have hnil : log.drop (i + 1) = [] := List.drop_eq_nil_of_le (by omega)
        have hlast : ¬ i < log.length - 1 := by omega
        rw [ih (i + 1) _ (by omega), hnil]
        simp only [List.map_nil, List.map_cons, commaSeparated,
          socket_writestr, socket_writechar, socket_writequotedstring,
          logEntryStr, quoted, if_neg hlast,
          singleton_colon, singleton_comma, singleton_lbrace,
          singleton_rbrace, List.get_eq_getElem, String.append_assoc,
          String.append_empty]
    · have h2 : log.drop i = [] := List.drop_eq_nil_of_le (by omega)
      rw [dif_neg h, h2]
      simp [commaSeparated]

/-! ## Claim theorems -/

/-- Claim C2: in every scheduler-loop iteration the watchdog reset is the
very first action, executed unconditionally before the LED update, the
sensor-sampling step, the connection-lifecycle step and the protocol
pump, whatever the polled inputs and whichever branches the iteration
later takes. -/
theorem wdt_reset_always_first (fuel : Nat) (e : Env) (s : ParserSt) :
    (loopIter fuel e s).1.head? = some Ev.wdtReset := by
  unfold loopIter iterBase
  cases hl : socket_received_line s.buf with
  | false => simp [hl]
  | true =>
    cases hp : pump fuel s with
    | none => simp [hl, hp]
    | some s' => simp [hl, hp]

/-- Claim C1 (code bug): `parseRecvBuffer` does not make bounded
non-blocking progress in every state.  Entered in the HEADER state with a
buffered header line but the terminating blank line not yet arrived, the
blank-line scan exhausts the buffer and then loops for ever (no iteration
budget makes it exit), so the call never returns control to the
scheduler. -/
theorem header_call_spins_on_partial_input :
    (∀ n, skipToBlankFuel n ["Host: device"] = none)
    ∧ parseRecvBuffer ⟨HEADER, GET, ⟨["Host: device"], 0⟩, []⟩ = none
    ∧ (∀ n, pump n ⟨HEADER, GET, ⟨["Host: device"], 0⟩, []⟩ = none) := by
  refine ⟨?_, by decide, ?_⟩
  · intro n
    exact skipToBlankFuel_of_none n _ (by decide)
  · exact pump_none_of_parse_none _ (by decide) (by decide)

/-- Claim C4 (code bug): a fully buffered request whose request line
matches no method prefix never completes parsing with `apiCall = NONE`:
the REQUEST-state scan flushes every buffered line and then loops for
ever (no iteration budget makes it exit), so control never reaches the
dispatch switch and the connection teardown. -/
theorem unrecognized_method_never_dispatches :
    (∀ n,
      requestLoopFuel n ["PATCH /sensors HTTP/1.1", "Host: device", ""]
        = none)
    ∧ (∀ n,
        pump n
          ⟨EMPTY, NONE,
            ⟨["PATCH /sensors HTTP/1.1", "Host: device", ""], 0⟩, []⟩
          = none) := by
  constructor
  · intro n
    exact requestLoopFuel_of_none n _ (by decide)
  · intro n
    cases n with
    | zero => rfl
    | succ m =>
      rw [pump_step m _
        ⟨REQUEST, NONE,
          ⟨["PATCH /sensors HTTP/1.1", "Host: device", ""], 0⟩, []⟩
        (by decide) (by decide)]
      exact pump_none_of_parse_none _ (by decide) (by decide) m

/-- Claim C8 (code bug): invoking `parseRecvBuffer` with zero buffered
lines is a no-op in the EMPTY state, but in the REQUEST state the call
does not return at all: the method scan loops for ever on the empty
buffer, so the invocation is not a state-preserving no-op in every
protocol state. -/
theorem zero_lines_not_noop_in_request_state :
    parseRecvBuffer ⟨EMPTY, NONE, ⟨[], 0⟩, []⟩
      = some ⟨EMPTY, NONE, ⟨[], 0⟩, []⟩
    ∧ parseRecvBuffer ⟨REQUEST, NONE, ⟨[], 0⟩, []⟩ = none
    ∧ (∀ n, requestLoopFuel n ([] : List String) = none) :=
  ⟨by decide, by decide, requestLoopFuel_nil⟩

/-- Claim C7 (counterexample): entered with `protocolState = 7` (outside
the four defined states), `parseRecvBuffer` emits the diagnostic but does
not reset the parser: the invalid state 7 is left in place rather than
being treated as EMPTY. -/
theorem invalid_state_not_reset :
    parseRecvBuffer ⟨7, NONE, ⟨["GET /x HTTP/1.1"], 0⟩, []⟩
      = some ⟨7, NONE, ⟨["GET /x HTTP/1.1"], 0⟩, [defaultCaseErr]⟩
    ∧ (7 : Nat) ≠ EMPTY :=
  ⟨by decide, by decide⟩

/-- Claim C7 (amended): entered with `protocolState` outside
`\x7bEMPTY, REQUEST, HEADER, END\x7d`, `parseRecvBuffer` emits the
diagnostic `ERR: Default case entered` and returns, leaving
`protocolState`, `apiCall` and the input buffer unchanged (the invalid
state stays in place; it is not reset to EMPTY). -/
theorem invalid_state_diagnostic_only (s : ParserSt)
    (h0 : s.protocolState ≠ EMPTY) (h1 : s.protocolState ≠ REQUEST)
    (h2 : s.protocolState ≠ HEADER) (h3 : s.protocolState ≠ END) :
    parseRecvBuffer s = some { s with uart := s.uart ++ [defaultCaseErr] } := by
  simp [parseRecvBuffer, h0, h1, h2, h3]

/-- Witness for the amended claim C7 at the concrete invalid state 7. -/
theorem invalid_state_diagnostic_only_w :
    parseRecvBuffer ⟨7, GET, ⟨[], 0⟩, ["boot"]⟩
      = some ⟨7, GET, ⟨[], 0⟩, ["boot", defaultCaseErr]⟩ :=
  invalid_state_diagnostic_only ⟨7, GET, ⟨[], 0⟩, ["boot"]⟩
    (by decide) (by decide) (by decide) (by decide)

/-- Claim C10 (counterexample): when the matched request line is the only
buffered line, the trailing flush discards nothing (one line is consumed
in total, not two), and the line immediately following the request line,
arriving later, is processed by the HEADER state. -/
theorem matched_line_flush_discards_nothing_when_unbuffered :
    parseRecvBuffer ⟨REQUEST, NONE, ⟨["GET / HTTP/1.1"], 0⟩, []⟩
      = some ⟨HEADER, GET, ⟨[], 0⟩, []⟩
    ∧ parseRecvBuffer ⟨HEADER, GET, ⟨["Host: a", ""], 0⟩, []⟩
      = some ⟨EMPTY, GET, ⟨[], 0⟩, []⟩ :=
  ⟨by decide, by decide⟩

/-- Claim C10 (amended): in the REQUEST state, when the head buffered
line matches a method prefix, `parseRecvBuffer` consumes that line and
then discards at most one further line — exactly one when another line
is already buffered (`rest.tail`), nothing otherwise — before
transitioning to HEADER with `apiCall` set to the decoded method. -/
theorem request_match_discards_at_most_one (s : ParserSt)
    (hst : s.protocolState = REQUEST) (m : String) (rest : List String)
    (api : Nat) (hb : s.buf.lines = m :: rest)
    (hm : methodOf m = some api) :
    parseRecvBuffer s
      = some { s with apiCall := api, protocolState := HEADER,
                      buf := { s.buf with lines := rest.tail } } :=
  parse_request_step s hst m rest api hb hm

/-- Witness for the amended claim C10: with a header line buffered behind
the matched request line, that one header line is discarded. -/
theorem request_match_discards_at_most_one_w :
    parseRecvBuffer ⟨REQUEST, NONE, ⟨["PUT /cfg HTTP/1.1", "Host: b", ""], 0⟩, []⟩
      = some ⟨HEADER, PUT, ⟨[""], 0⟩, []⟩ :=
  request_match_discards_at_most_one
    ⟨REQUEST, NONE, ⟨["PUT /cfg HTTP/1.1", "Host: b", ""], 0⟩, []⟩
    rfl "PUT /cfg HTTP/1.1" ["Host: b", ""] PUT rfl (by decide)

/-- Claim C9 (counterexample): a scheduler iteration that has a complete
line buffered but whose request line matches no method never reaches the
teardown: the pump never comes to rest, so `socket_disconnect` does not
occur in the iteration under any iteration budget. -/
theorem unmatched_request_never_disconnects :
    ¬ iterDisconnects ⟨false, false⟩
        ⟨EMPTY, NONE, ⟨["PATCH / HTTP/1.1"], 0⟩, []⟩ := by
  rintro ⟨fuel, hmem⟩
  have hpump : ∀ n,
      pump n (⟨EMPTY, NONE, ⟨["PATCH / HTTP/1.1"], 0⟩, []⟩ : ParserSt)
        = none := by
    intro n
    cases n with
    | zero => rfl
    | succ m =>
      rw [pump_step m _ ⟨REQUEST, NONE, ⟨["PATCH / HTTP/1.1"], 0⟩, []⟩
        (by decide) (by decide)]
      exact pump_none_of_parse_none _ (by decide) (by decide) m
  rw [loopIter, hpump fuel] at hmem
  exact absurd hmem (by decide)

/-- Claim C9 (amended): in every scheduler iteration that starts with at
least one complete line buffered and whose protocol pump comes to rest,
the iteration's trace ends with the dispatch actions for the decoded
`apiCall` followed by exactly one `socket_disconnect` — teardown happens
exactly once, after dispatch, even when `apiCall` is NONE and the
dispatch performs no action. -/
theorem request_cycle_disconnects_once (fuel : Nat) (e : Env)
    (s s' : ParserSt) (hl : socket_received_line s.buf = true)
    (hpump : pump fuel s = some s') :
    (loopIter fuel e s).1
        = (iterBase e ++ [Ev.parsePump] ++ dispatchEvs s'.apiCall)
            ++ [Ev.disconnect]
      ∧ ((loopIter fuel e s).1).count Ev.disconnect = 1 := by
  have htr : (loopIter fuel e s).1
      = iterBase e ++ [Ev.parsePump] ++ dispatchEvs s'.apiCall
          ++ [Ev.disconnect] := by
    rw [loopIter, hpump]
    simp [hl]
  have hbase : Ev.disconnect ∉ iterBase e := by
    unfold iterBase
    cases e.delayDone <;> cases e.sockClosed <;> decide
  have hdisp : Ev.disconnect ∉ dispatchEvs s'.apiCall := by
    unfold dispatchEvs
    repeat' split
    all_goals decide
  constructor
  · exact htr
  · rw [htr]
    simp [List.count_append, List.count_eq_zero.mpr hbase,
      List.count_eq_zero.mpr hdisp]

/-- Witness for the amended claim C9 on a concrete buffered GET request:
the iteration trace is the base steps, the pump, the GET dispatch and a
single disconnect. -/
theorem request_cycle_disconnects_once_w :
    (loopIter 4 ⟨false, false⟩
        ⟨EMPTY, NONE, ⟨["GET / HTTP/1.1", "Host: a", ""], 0⟩, []⟩).1
        = (iterBase ⟨false, false⟩ ++ [Ev.parsePump]
            ++ dispatchEvs (⟨EMPTY, GET, ⟨[], 0⟩, []⟩ : ParserSt).apiCall)
            ++ [Ev.disconnect]
      ∧ ((loopIter 4 ⟨false, false⟩
          ⟨EMPTY, NONE, ⟨["GET / HTTP/1.1", "Host: a", ""], 0⟩, []⟩).1).count
            Ev.disconnect = 1 :=
  request_cycle_disconnects_once 4 ⟨false, false⟩
    ⟨EMPTY, NONE, ⟨["GET / HTTP/1.1", "Host: a", ""], 0⟩, []⟩
    ⟨EMPTY, GET, ⟨[], 0⟩, []⟩ (by decide) (by decide)

/-- Claim C3 (counterexample): the well-formed zero-header no-body
request — the line `GET / HTTP/1.1` followed by the blank end-of-headers
line, both buffered — is fully consumed, but the parser comes to rest in
HEADER, never returning to EMPTY: the flush after the method match ate
the blank line that the HEADER state was supposed to see. -/
theorem zero_header_request_sticks_in_header :
    ¬ drivesToEmpty
        ⟨EMPTY, NONE, ⟨requestLines "GET / HTTP/1.1" [] [], 0⟩, []⟩
        GET := by
  rintro ⟨n, s', hp, hst, -, -⟩
  have key : ∀ k,
      pump k
        (⟨EMPTY, NONE, ⟨requestLines "GET / HTTP/1.1" [] [], 0⟩, []⟩ :
          ParserSt) = none
      ∨ pump k
          (⟨EMPTY, NONE, ⟨requestLines "GET / HTTP/1.1" [] [], 0⟩, []⟩ :
            ParserSt) = some ⟨HEADER, GET, ⟨[], 0⟩, []⟩ := by
    intro k
    match k with
    | 0 => exact Or.inl rfl
    | 1 => exact Or.inl (by decide)
    | 2 => exact Or.inl (by decide)
    | (j + 3) =>
      right
      rw [pump_step (j + 2) _
            ⟨REQUEST, NONE, ⟨requestLines "GET / HTTP/1.1" [] [], 0⟩, []⟩
            (by decide) (by decide),
          pump_step (j + 1) _ ⟨HEADER, GET, ⟨[], 0⟩, []⟩
            (by decide) (by decide)]
      exact pump_no_line j _ (by decide)
  rcases key n with h | h
  · rw [hp] at h
    cases h
  · rw [hp] at h
    obtain rfl := Option.some.inj h
    exact absurd hst (by decide)

/-- Claim C3 (amended): for every well-formed request with at least one
header line (headers and body lines blank-free) whose lines are all
buffered before the first invocation, with no trailing partial line,
repeated invocation of `parseRecvBuffer` drives the parser from EMPTY
back to rest at EMPTY with `apiCall` holding exactly the method of the
request line. -/
theorem valid_buffered_request_parses (m : String) (api : Nat)
    (hs body : List String) (a0 : Nat) (u : List String)
    (hm : methodOf m = some api) (hhs : hs ≠ [])
    (hhsb : ∀ l ∈ hs, l ≠ "") (hbb : ∀ l ∈ body, l ≠ "") :
    drivesToEmpty ⟨EMPTY, a0, ⟨requestLines m hs body, 0⟩, u⟩ api := by
  cases hs with
  | nil => exact absurd rfl hhs
  | cons h0 hs' =>
    have hhs'b : ∀ l ∈ hs', l ≠ "" :=
      fun l hl => hhsb l (List.mem_cons_of_mem h0 hl)
    have hrecv : socket_received_line
        (⟨requestLines m (h0 :: hs') body, 0⟩ : SocketBuf) = true := by
      refine received_line_of_ne _ ?_
      simp [requestLines]
    have e1 : parseRecvBuffer
        ⟨EMPTY, a0, ⟨requestLines m (h0 :: hs') body, 0⟩, u⟩
        = some ⟨REQUEST, NONE, ⟨requestLines m (h0 :: hs') body, 0⟩, u⟩ :=
      parse_empty_step _ rfl hrecv
    by_cases hbody : body.isEmpty
    · -- request without a body
      have hB : requestLines m (h0 :: hs') body
          = m :: h0 :: (hs' ++ "" :: []) := by
        simp [requestLines, hbody]
      have e2 : parseRecvBuffer
          ⟨REQUEST, NONE, ⟨requestLines m (h0 :: hs') body, 0⟩, u⟩
          = some ⟨HEADER, api, ⟨hs' ++ "" :: [], 0⟩, u⟩ :=
        parse_request_step _ rfl m (h0 :: (hs' ++ "" :: [])) api hB hm
      have e3 : parseRecvBuffer ⟨HEADER, api, ⟨hs' ++ "" :: [], 0⟩, u⟩
          = some ⟨EMPTY, api, ⟨[], 0⟩, u⟩ := by
        rw [parse_header_step _ rfl [] (skipToBlank_append hs' [] hhs'b)]
        simp [socket_recv_available]
      refine ⟨4, ⟨EMPTY, api, ⟨[], 0⟩, u⟩, ?_, rfl, rfl, rfl⟩
      rw [pump_step 3 _ _ hrecv e1,
          pump_step 2 _ _ hrecv e2,
          pump_step 1 _ _ (received_line_of_ne _ (by simp)) e3]
      exact pump_no_line 0 _ rfl
    · -- request with a body
      have hbne : body ≠ [] := by
        cases body with
        | nil => simp at hbody
        | cons b bs => exact List.cons_ne_nil b bs
      obtain ⟨b0, bs, hbx⟩ := List.exists_cons_of_ne_nil hbne
      have hB : requestLines m (h0 :: hs') body
          = m :: h0 :: (hs' ++ "" :: (body ++ "" :: [])) := by
        simp [requestLines, hbody]
      have e2 : parseRecvBuffer
          ⟨REQUEST, NONE, ⟨requestLines m (h0 :: hs') body, 0⟩, u⟩
          = some ⟨HEADER, api, ⟨hs' ++ "" :: (body ++ "" :: []), 0⟩, u⟩ :=
        parse_request_step _ rfl m
          (h0 :: (hs' ++ "" :: (body ++ "" :: []))) api hB hm
      have e3 : parseRecvBuffer
          ⟨HEADER, api, ⟨hs' ++ "" :: (body ++ "" :: []), 0⟩, u⟩
          = some ⟨END, api, ⟨body ++ "" :: [], 0⟩, u⟩ := by
        rw [parse_header_step _ rfl (body ++ "" :: [])
          (skipToBlank_append hs' (body ++ "" :: []) hhs'b)]
        have hpos : 0 < socket_recv_available ⟨body ++ "" :: [], 0⟩ := by
          rw [hbx, List.cons_append]
          exact recv_available_cons_pos b0 (bs ++ "" :: []) 0
        rw [if_pos hpos]
      have e4 : parseRecvBuffer ⟨END, api, ⟨body ++ "" :: [], 0⟩, u⟩
          = some ⟨EMPTY, api, ⟨[], 0⟩, u⟩ :=
        parse_end_step _ rfl [] (skipToBlank_append body [] hbb)
      refine ⟨5, ⟨EMPTY, api, ⟨[], 0⟩, u⟩, ?_, rfl, rfl, rfl⟩
      rw [pump_step 4 _ _ hrecv e1,
          pump_step 3 _ _ hrecv e2,
          pump_step 2 _ _ (received_line_of_ne _ (by simp)) e3,
          pump_step 1 _ _ (received_line_of_ne _ (by simp)) e4]
      exact pump_no_line 0 _ rfl

/-- Witness for the amended claim C3 on a concrete one-header request
with a one-line body. -/
theorem valid_buffered_request_parses_w :
    drivesToEmpty
      ⟨EMPTY, NONE,
        ⟨requestLines "DELETE /log HTTP/1.1" ["Host: device"] ["x"], 0⟩,
        []⟩
      DELETE :=
  valid_buffered_request_parses "DELETE /log HTTP/1.1" DELETE
    ["Host: device"] ["x"] NONE [] (by decide) (by decide) (by decide)
    (by decide)

/-- Claim C5 (counterexample): the response does not begin with a
CRLF-terminated status line: the bytes after `HTTP/1.1 200 OK` are
immediately `Content-Type: ...` with no line terminator between them (nor
after the content-type header). -/
theorem response_status_line_unterminated :
    strPrefixOf "HTTP/1.1 200 OK\r\n" (getCall fmt0 vpd0 cfg0 75 [] "")
      = false
    ∧ strPrefixOf
        "HTTP/1.1 200 OKContent-Type: application/vnd.api+json"
        (getCall fmt0 vpd0 cfg0 75 [] "") = true := by
  refine ⟨?_, ?_⟩ <;>
  · simp only [getCall]
    rw [logLoopW]
    simp only [List.length_nil, Nat.lt_irrefl, dite_false]
    decide

/-- Claim C5 (amended): the GET response consists of the status text, the
content-type header text and `Connection: close` concatenated — only the
`Connection: close` header and the header/body separator carry CRLF —
followed by a single JSON object whose keys appear in exactly the fixed
order: `vpd` (with `model`, `manufacturer`, `serial_number`,
`manufacture_date`, `mac_address`, `country_code` in that order),
`tcrit_hi`, `twarn_hi`, `tcrit_lo`, `twarn_lo`, `temperature`, `state`,
`log`. -/
theorem get_response_wire_format (f : Fmt) (v : VPD) (c : Config)
    (temp : Int) (log : List (Nat × Nat)) (out : String) :
    getCall f v c temp log out
      = out
        ++ "HTTP/1.1 200 OK"
        ++ "Content-Type: application/vnd.api+json"
        ++ "Connection: close\r\n"
        ++ "\r\n"
        ++ "\x7b" ++ quoted "vpd" ++ ":\x7b"
        ++ quoted "model" ++ ":" ++ quoted v.model ++ ","
        ++ quoted "manufacturer" ++ ":" ++ quoted v.manufacturer ++ ","
        ++ quoted "serial_number" ++ ":" ++ quoted v.serial_number ++ ","
        ++ quoted "manufacture_date" ++ ":" ++ f.date v.manufacture_date
        ++ ","
        ++ quoted "mac_address" ++ ":" ++ f.mac v.mac_address ++ ","
        ++ quoted "country_code" ++ ":" ++ quoted v.country_of_origin
        ++ "\x7d" ++ ","
        ++ quoted "tcrit_hi" ++ ":" ++ f.dec c.hi_alarm ++ ","
        ++ quoted "twarn_hi" ++ ":" ++ f.dec c.hi_warn ++ ","
        ++ quoted "tcrit_lo" ++ ":" ++ f.dec c.lo_alarm ++ ","
        ++ quoted "twarn_lo" ++ ":" ++ f.dec c.lo_warn ++ ","
        ++ quoted "temperature" ++ ":" ++ f.dec temp ++ ","
        ++ quoted "state" ++ ":" ++ quoted "NORMAL" ++ ","
        ++ quoted "log" ++ ":["
        ++ commaSeparated (log.map (logEntryStr f))
        ++ "]" ++ "\x7d" ++ "\r\n" := by
  simp only [getCall, socket_writestr, socket_writechar,
    socket_writequotedstring, singleton_colon, singleton_comma,
    singleton_lbrace, singleton_rbrace, singleton_rbracket,
    String.append_assoc]
  rw [logLoopW_eq f log log.length 0 _ (by omega)]
  simp [String.append_assoc]

/-- Claim C6: the log-array loop of the GET response serializes, onto the
bytes written so far, exactly the entries of the log store — one
rendered record per store entry, in store order, comma-separated with no
comma after the last entry. -/
theorem get_log_array_matches_store (f : Fmt) (log : List (Nat × Nat))
    (out : String) :
    logLoopW f log 0 out = out ++ commaSeparated (log.map (logEntryStr f))
    ∧ (log.map (logEntryStr f)).length = log.length := by
  constructor
  · have h := logLoopW_eq f log log.length 0 out (by omega)
    simpa using h
  · simp

end FinalProject
